import Mathlib

/-!
Verification of the Figma documentation-sync repository: a shallow embedding
of the webhook receiver (`api/figma-webhook`-style handler), the dispatch
forwarder, and the pull-and-update-docs pipeline, together with theorems
settling the specification's testable properties.

Bytes are modelled as natural numbers taken modulo 256, 32-bit words as
natural numbers taken modulo 2^32, file systems as association lists from
path to content, and network responses as explicit parameters.
-/

set_option maxRecDepth 40000

namespace FigmaSync

/-! ### SHA-256 (the `createHmac('sha256', ...)` primitive from node:crypto) -/

/-- 2^32, the modulus for 32-bit words. -/
def M32 : Nat := 4294967296

/-- Right rotation of a 32-bit word (input assumed < 2^32, output reduced). -/
def rotr (n x : Nat) : Nat := ((x >>> n) ||| (x <<< (32 - n))) % M32

/-- Integer cube root by binary search: greatest `k` with `k^3 ≤ n`
(bisection keeps the invariant `lo^3 ≤ n < hi^3`). -/
def cbrtGo (n : Nat) : Nat → Nat → Nat → Nat
  | 0, lo, _ => lo
  | fuel+1, lo, hi =>
    if hi ≤ lo + 1 then lo
    else
      let mid := (lo + hi) / 2
      if mid ^ 3 ≤ n then cbrtGo n fuel mid hi else cbrtGo n fuel lo mid

/-- Integer cube root. -/
def icbrt (n : Nat) : Nat := cbrtGo n 200 0 (n + 1)

/-- Integer square root by binary search: greatest `k` with `k^2 ≤ n`. -/
def sqrtGo (n : Nat) : Nat → Nat → Nat → Nat
  | 0, lo, _ => lo
  | fuel+1, lo, hi =>
    if hi ≤ lo + 1 then lo
    else
      let mid := (lo + hi) / 2
      if mid ^ 2 ≤ n then sqrtGo n fuel mid hi else sqrtGo n fuel lo mid

/-- Integer square root. -/
def isqrt (n : Nat) : Nat := sqrtGo n 200 0 (n + 1)

/-- The first 64 primes, source of the SHA-256 round constants. -/
def primes64 : List Nat :=
  [2, 3, 5, 7, 11, 13, 17, 19, 23, 29, 31, 37, 41, 43, 47, 53,
   59, 61, 67, 71, 73, 79, 83, 89, 97, 101, 103, 107, 109, 113, 127, 131,
   137, 139, 149, 151, 157, 163, 167, 173, 179, 181, 191, 193, 197, 199, 211, 223,
   227, 229, 233, 239, 241, 251, 257, 263, 269, 271, 277, 281, 283, 293, 307, 311]

/-- SHA-256 round constants: fractional parts of the cube roots of the
first 64 primes, as 32-bit words. -/
def K256 : List Nat := primes64.map (fun p => icbrt (p * 2 ^ 96) % M32)

/-- The running hash state: eight 32-bit words. -/
structure HashS where
  a : Nat
  b : Nat
  c : Nat
  d : Nat
  e : Nat
  f : Nat
  g : Nat
  h : Nat
deriving DecidableEq, Repr

/-- SHA-256 initial hash value: fractional parts of the square roots of the
first 8 primes. -/
def initH : HashS :=
  match (primes64.take 8).map (fun p => isqrt (p * 2 ^ 64) % M32) with
  | [x0, x1, x2, x3, x4, x5, x6, x7] => ⟨x0, x1, x2, x3, x4, x5, x6, x7⟩
  | _ => ⟨0, 0, 0, 0, 0, 0, 0, 0⟩

def chFn (e f g : Nat) : Nat := (e &&& f) ^^^ ((e ^^^ 4294967295) &&& g)

def majFn (a b c : Nat) : Nat := (a &&& b) ^^^ (a &&& c) ^^^ (b &&& c)

def bigSigma0 (x : Nat) : Nat := rotr 2 x ^^^ rotr 13 x ^^^ rotr 22 x

def bigSigma1 (x : Nat) : Nat := rotr 6 x ^^^ rotr 11 x ^^^ rotr 25 x

def smallSigma0 (x : Nat) : Nat := rotr 7 x ^^^ rotr 18 x ^^^ (x >>> 3)

def smallSigma1 (x : Nat) : Nat := rotr 17 x ^^^ rotr 19 x ^^^ (x >>> 10)

/-- Big-endian assembly of bytes into 32-bit words. -/
def bytesToWords : List Nat → List Nat
  | b0 :: b1 :: b2 :: b3 :: rest =>
    (b0 % 256 * 16777216 + b1 % 256 * 65536 + b2 % 256 * 256 + b3 % 256) :: bytesToWords rest
  | _ => []

/-- Extend the message schedule; `w` holds the schedule so far, most recent
word first (so index 1 is W[t-2], 6 is W[t-7], 14 is W[t-15], 15 is W[t-16]). -/
def extendSchedule : Nat → List Nat → List Nat
  | 0, w => w
  | k+1, w =>
    let nw := (smallSigma1 (w.getD 1 0) + w.getD 6 0 + smallSigma0 (w.getD 14 0)
               + w.getD 15 0) % M32
    extendSchedule k (nw :: w)

/-- The 64-entry message schedule of one 64-byte block. -/
def schedule (block : List Nat) : List Nat :=
  (extendSchedule 48 (bytesToWords block).reverse).reverse

/-- One SHA-256 round. -/
def roundStep (st : HashS) (kw : Nat × Nat) : HashS :=
  let t1 := (st.h + bigSigma1 st.e + chFn st.e st.f st.g + kw.1 + kw.2) % M32
  let t2 := (bigSigma0 st.a + majFn st.a st.b st.c) % M32
  ⟨(t1 + t2) % M32, st.a, st.b, st.c, (st.d + t1) % M32, st.e, st.f, st.g⟩

/-- Compress one 64-byte block into the running hash. -/
def compressBlock (H : HashS) (block : List Nat) : HashS :=
  let st := (K256.zip (schedule block)).foldl roundStep H
  ⟨(H.a + st.a) % M32, (H.b + st.b) % M32, (H.c + st.c) % M32, (H.d + st.d) % M32,
   (H.e + st.e) % M32, (H.f + st.f) % M32, (H.g + st.g) % M32, (H.h + st.h) % M32⟩

/-- Big-endian 8-byte encoding of a length in bits. -/
def lenBytes (n : Nat) : List Nat :=
  [n / 2 ^ 56 % 256, n / 2 ^ 48 % 256, n / 2 ^ 40 % 256, n / 2 ^ 32 % 256,
   n / 2 ^ 24 % 256, n / 2 ^ 16 % 256, n / 2 ^ 8 % 256, n % 256]

/-- SHA-256 padding: append 0x80, zeros, and the 64-bit bit length, reaching
a multiple of 64 bytes. -/
def padMsg (m : List Nat) : List Nat :=
  m ++ [128] ++ List.replicate ((119 - m.length % 64) % 64) 0 ++ lenBytes (8 * m.length)

/-- Split into 64-byte chunks (fuel-driven; fuel = list length suffices). -/
def chunksOf64 : Nat → List Nat → List (List Nat)
  | 0, _ => []
  | _, [] => []
  | fuel+1, l => l.take 64 :: chunksOf64 fuel (l.drop 64)

/-- The final SHA-256 state of a byte string. -/
def sha256Hash (m : List Nat) : HashS :=
  let p := padMsg m
  (chunksOf64 p.length p).foldl compressBlock initH

/-- Big-endian byte decomposition of a 32-bit word. -/
def wordBytes (w : Nat) : List Nat := [w / 16777216 % 256, w / 65536 % 256, w / 256 % 256, w % 256]

/-- The 32-byte SHA-256 digest. -/
def sha256Bytes (m : List Nat) : List Nat :=
  match sha256Hash m with
  | ⟨a, b, c, d, e, f, g, h⟩ =>
    wordBytes a ++ wordBytes b ++ wordBytes c ++ wordBytes d ++
    wordBytes e ++ wordBytes f ++ wordBytes g ++ wordBytes h

/-- Lowercase hex digit. -/
def hexDigitChar (n : Nat) : Char := if n < 10 then Char.ofNat (48 + n) else Char.ofNat (87 + n)

/-- Two-character lowercase hex encoding of a byte. -/
def byteToHex (b : Nat) : List Char := [hexDigitChar (b / 16 % 16), hexDigitChar (b % 16)]

/-- Lowercase hex string of a byte list (as `digest('hex')` renders it). -/
def bytesToHexStr (l : List Nat) : String := String.mk (l.map byteToHex).flatten

/-! ### HMAC-SHA256 -/

/-- HMAC key normalisation for the 64-byte SHA-256 block size: hash
over-long keys, then zero-pad to 64 bytes. -/
def hmacKeyNorm (secret : List Nat) : List Nat :=
  let k := if 64 < secret.length then sha256Bytes secret else secret
  k ++ List.replicate (64 - k.length) 0

/-- The final hash state of HMAC-SHA256 (outer hash). -/
def hmacSha256Hash (secret msg : List Nat) : HashS :=
  let k := hmacKeyNorm secret
  sha256Hash (k.map (fun b => b ^^^ 92) ++ sha256Bytes (k.map (fun b => b ^^^ 54) ++ msg))

/-- The hex digest string produced by
`createHmac('sha256', secret).update(msg).digest('hex')`. -/
def hmacSha256Hex (secret msg : List Nat) : String :=
  match hmacSha256Hash secret msg with
  | ⟨a, b, c, d, e, f, g, h⟩ =>
    bytesToHexStr (wordBytes a ++ wordBytes b ++ wordBytes c ++ wordBytes d ++
      wordBytes e ++ wordBytes f ++ wordBytes g ++ wordBytes h)

/-- `verifyFigmaWebhook(payload, signature, secret)`: recompute the
HMAC-SHA256 hex digest of the payload under the secret and compare. -/
def verifyFigmaWebhook (payload : List Nat) (signature : String) (secret : List Nat) : Bool :=
  signature == hmacSha256Hex secret payload

/-! ### Strings as byte sequences (JS strings are hashed via their UTF-8 bytes) -/

/-- UTF-8 encoding of one character. -/
def charUtf8 (c : Char) : List Nat :=
  let n := c.toNat
  if n < 128 then [n]
  else if n < 2048 then [192 + n / 64, 128 + n % 64]
  else if n < 65536 then [224 + n / 4096, 128 + n / 64 % 64, 128 + n % 64]
  else [240 + n / 262144, 128 + n / 4096 % 64, 128 + n / 64 % 64, 128 + n % 64]

/-- UTF-8 bytes of a string, the form in which node's `hmac.update` consumes it. -/
def utf8Bytes (s : String) : List Nat := (s.data.map charUtf8).flatten

/-! ### The webhook event body and its JSON serialization -/

/-- The parsed webhook request body (`req.body`); absent JSON fields are `none`. -/
structure FigmaEvent where
  event_type : Option String
  file_name : Option String
  file_key : Option String
  triggered_by : Option String
deriving DecidableEq, Repr

/-- JSON string escaping as performed by `JSON.stringify`. -/
def jsonEscapeChar (c : Char) : List Char :=
  if c = '"' then ['\\', '"']
  else if c = '\\' then ['\\', '\\']
  else if c = '\n' then ['\\', 'n']
  else if c = '\r' then ['\\', 'r']
  else if c = '\t' then ['\\', 't']
  else if c.toNat = 8 then ['\\', 'b']
  else if c.toNat = 12 then ['\\', 'f']
  else if c.toNat < 32 then ['\\', 'u', '0', '0', hexDigitChar (c.toNat / 16), hexDigitChar (c.toNat % 16)]
  else [c]

/-- A JSON string literal. -/
def jsonStr (s : String) : String := "\"" ++ String.mk (s.data.map jsonEscapeChar).flatten ++ "\""

/-- `JSON.stringify(req.body)`: fields in declaration order, absent
(`undefined`) fields omitted. -/
def stringifyFigmaEvent (ev : FigmaEvent) : String :=
  let fields :=
    (match ev.event_type with | some v => ["\"event_type\":" ++ jsonStr v] | none => []) ++
    (match ev.file_name with | some v => ["\"file_name\":" ++ jsonStr v] | none => []) ++
    (match ev.file_key with | some v => ["\"file_key\":" ++ jsonStr v] | none => []) ++
    (match ev.triggered_by with | some v => ["\"triggered_by\":" ++ jsonStr v] | none => [])
  "\x7b" ++ String.intercalate "," fields ++ "\x7d"

/-! ### Webhook receiver and dispatch forwarder -/

/-- JavaScript truthiness of an optional environment string: `undefined`
and the empty string are falsy. -/
def jsTruthy : Option String → Bool
  | none => false
  | some s => !(s == "")

/-- An HTTP response as seen through `fetch`: status code and body text. -/
structure HttpResponse where
  status : Nat
  text : String
deriving DecidableEq, Repr

/-- `response.ok`: status in the 2xx range. -/
def respOk (r : HttpResponse) : Bool := decide (200 ≤ r.status) && decide (r.status < 300)

/-- The webhook handler's environment (`process.env`). -/
structure WebhookEnv where
  figmaWebhookSecret : Option String
  githubToken : Option String
  githubRepository : Option String
deriving DecidableEq, Repr

/-- An incoming webhook request: method, the `x-figma-signature` header
(absent allowed), and the parsed body. -/
structure WebhookRequest where
  method : String
  signature : Option String
  body : FigmaEvent
deriving DecidableEq, Repr

/-- The JSON response the handler sends: status plus the possible fields. -/
structure WebhookResponse where
  status : Nat
  message : Option String
  error : Option String
  triggered : Option Bool
  event_type : Option String
deriving DecidableEq, Repr

/-- The repository-dispatch payload `triggerGitHubAction` builds. -/
structure DispatchPayload where
  event_type : String
  cp_event_type : Option String
  cp_file_name : Option String
  cp_file_key : Option String
  cp_timestamp : String
  cp_triggered_by : Option String
deriving DecidableEq, Repr

/-- The payload sent to the `/dispatches` endpoint. -/
def buildDispatchPayload (now : String) (ev : FigmaEvent) : DispatchPayload :=
  ⟨"figma-update", ev.event_type, ev.file_name, ev.file_key, now, ev.triggered_by⟩

/-- `triggerGitHubAction(figmaEvent)`: fails fast on missing configuration
(before any network call), otherwise performs the single dispatch POST whose
outcome is `resp`; a non-2xx response raises with status and body attached.
Returns the thrown-or-ok result together with the number of POSTs issued. -/
def triggerGitHubAction (env : WebhookEnv) (resp : HttpResponse) :
    Except String Unit × Nat :=
  if !jsTruthy env.githubToken || !jsTruthy env.githubRepository then
    (Except.error "Missing GitHub configuration", 0)
  else if respOk resp then
    (Except.ok (), 1)
  else
    (Except.error ("GitHub API error: " ++ toString resp.status ++ " " ++ resp.text), 1)

/-- The webhook `handler(req, res)`: CORS preflight, method check, signature
check, event-type filter, dispatch. `dispatchResp` is the response the one
possible outbound dispatch POST would receive. Returns the HTTP response sent
and the number of dispatch POSTs issued. -/
def handler (env : WebhookEnv) (req : WebhookRequest) (dispatchResp : HttpResponse) :
    WebhookResponse × Nat :=
  if req.method == "OPTIONS" then
    (⟨200, some "OK", none, none, none⟩, 0)
  else if !(req.method == "POST") then
    (⟨405, none, some "Method not allowed", none, none⟩, 0)
  else
    let payload := utf8Bytes (stringifyFigmaEvent req.body)
    let sigOk :=
      match req.signature with
      | some sig => verifyFigmaWebhook payload sig (utf8Bytes ((env.figmaWebhookSecret).getD ""))
      | none => false
    if jsTruthy env.figmaWebhookSecret && !sigOk then
      (⟨401, none, some "Invalid signature", none, none⟩, 0)
    else if req.body.event_type == some "FILE_UPDATE" then
      match triggerGitHubAction env dispatchResp with
      | (Except.ok _, n) =>
        (⟨200, some "Webhook processed successfully", none, some true, none⟩, n)
      | (Except.error _, n) =>
        (⟨500, none, some "Internal server error", none, none⟩, n)
    else
      (⟨200, some "Event ignored", none, none, req.body.event_type⟩, 0)

/-! ### Generic string helpers mirroring the JavaScript string methods used -/

/-- Whether `pat` is an initial segment of `l`. -/
def isPre : List Char → List Char → Bool
  | [], _ => true
  | _ :: _, [] => false
  | a :: asl, b :: bs => a == b && isPre asl bs

/-- Whether `pat` occurs as a contiguous sublist of `l`. -/
def containsAt : List Char → List Char → Bool
  | pat, [] => isPre pat []
  | pat, c :: t => isPre pat (c :: t) || containsAt pat t

/-- JavaScript `s.includes(pat)`. -/
def strIncludes (s pat : String) : Bool := containsAt pat.data s.data

/-- JavaScript `s.toLowerCase()` (ASCII range, which covers all inputs here). -/
def jsLower (s : String) : String := String.mk (s.data.map Char.toLower)

/-- One step of JavaScript global literal replacement: left-to-right,
non-overlapping. Fuel-driven; `l.length` fuel suffices. -/
def replaceAllGo (pat rep : List Char) : Nat → List Char → List Char
  | 0, l => l
  | _, [] => if isPre pat [] then rep else []
  | fuel+1, c :: t =>
    if isPre pat (c :: t) then rep ++ replaceAllGo pat rep fuel ((c :: t).drop pat.length)
    else c :: replaceAllGo pat rep fuel t

/-- JavaScript `s.replace(/pat/g, rep)` for a literal, non-empty pattern. -/
def jsReplaceAll (s pat rep : String) : String :=
  String.mk (replaceAllGo pat.data rep.data (s.data.length + 1) s.data)

/-- JavaScript `s.split(',')`. -/
def splitCommaGo : List Char → List Char → List String
  | [], cur => [String.mk cur.reverse]
  | c :: t, cur => if c == ',' then String.mk cur.reverse :: splitCommaGo t [] else splitCommaGo t (c :: cur)

/-- JavaScript `s.split(',')`: the comma-separated fields, `[""]` for the
empty string. -/
def jsSplitComma (s : String) : List String := splitCommaGo s.data []

/-- Index of the first occurrence of `pat` in `l`, if any. -/
def findSubIdx : List Char → List Char → Option Nat
  | pat, [] => if isPre pat [] then some 0 else none
  | pat, c :: t =>
    if isPre pat (c :: t) then some 0
    else (findSubIdx pat t).map (· + 1)

/-! ### `transformVariablesToTokens` -/

/-- A Figma design variable (`meta.variables` entry); mode values are kept in
their string rendering, which is how the script interpolates them. -/
structure FigmaVariable where
  name : String
  variableCollectionId : String
  valuesByMode : List (String × String)
deriving DecidableEq, Repr

/-- A Figma variable collection (`meta.variableCollections` entry). -/
structure VariableCollection where
  id : String
  name : String
  defaultModeId : String
deriving DecidableEq, Repr

/-- The `meta` object of the variables endpoint payload; `vars` models the
`meta.variables` map (`variables` is reserved in Lean). -/
structure FigmaMeta where
  variableCollections : List VariableCollection
  vars : List FigmaVariable
deriving DecidableEq, Repr

/-- The variables endpoint payload (`meta` may be absent). -/
structure FigmaData where
  meta : Option FigmaMeta
deriving DecidableEq, Repr

/-- One token entry `{value, type}`; `value` is `none` when the underlying
mode value was `undefined`. -/
structure TokenEntry where
  value : Option String
  type : String
deriving DecidableEq, Repr

/-- The token document: three category maps plus the `$lastSync` stamp.
Maps are association lists in JS-object insertion order. -/
structure Tokens where
  colors : List (String × TokenEntry)
  typography : List (String × TokenEntry)
  spacing : List (String × TokenEntry)
  lastSync : String
deriving DecidableEq, Repr

/-- JS-object assignment `m[k] = v`: overwrite in place, else append. -/
def insertToken (m : List (String × TokenEntry)) (k : String) (v : TokenEntry) :
    List (String × TokenEntry) :=
  match m with
  | [] => [(k, v)]
  | (k', v') :: t => if k' == k then (k, v) :: t else (k', v') :: insertToken t k v

/-- The classification tests, in the priority order of the source's
`if`/`else if` chain. -/
def matchesColor (v : FigmaVariable) (c : VariableCollection) : Bool :=
  strIncludes (jsLower v.name) "color" || strIncludes (jsLower c.name) "color"

def matchesSpacing (v : FigmaVariable) (c : VariableCollection) : Bool :=
  strIncludes (jsLower v.name) "spacing" || strIncludes (jsLower c.name) "spacing"

def matchesFont (v : FigmaVariable) (c : VariableCollection) : Bool :=
  strIncludes (jsLower v.name) "font" || strIncludes (jsLower c.name) "typography"

/-- JS template interpolation of a possibly-`undefined` value. -/
def jsShow (v : Option String) : String := v.getD "undefined"

/-- Process one variable against one collection (the body of the inner
`forEach`). -/
def classifyStep (c : VariableCollection) (tk : Tokens) (v : FigmaVariable) : Tokens :=
  if v.variableCollectionId == c.id then
    let tokenValue := (v.valuesByMode.lookup c.defaultModeId)
    if matchesColor v c then
      { tk with colors := insertToken tk.colors v.name ⟨tokenValue, "color"⟩ }
    else if matchesSpacing v c then
      { tk with spacing := insertToken tk.spacing v.name ⟨some (jsShow tokenValue ++ "px"), "dimension"⟩ }
    else if matchesFont v c then
      { tk with typography := insertToken tk.typography v.name ⟨tokenValue, "fontFamily"⟩ }
    else tk
  else tk

/-- `transformVariablesToTokens(figmaData)`; `now` stands for
`new Date().toISOString()`. -/
def transformVariablesToTokens (figmaData : FigmaData) (now : String) : Tokens :=
  let init : Tokens := ⟨[], [], [], now⟩
  match figmaData.meta with
  | none => init
  | some meta =>
    meta.variableCollections.foldl
      (fun tk c => meta.vars.foldl (classifyStep c) tk) init

/-! ### File-system model: association list from path to file content -/

/-- The file system: path/content pairs, most specific binding first. -/
def FS := List (String × String)

instance : DecidableEq FS := inferInstanceAs (DecidableEq (List (String × String)))

instance : Repr FS := inferInstanceAs (Repr (List (String × String)))

/-- `fs.readFile`: `none` models the throw on a missing file. -/
def fsRead (fs : FS) (p : String) : Option String := fs.lookup p

/-- `fs.writeFile`: overwrite the binding if present, else create it. -/
def fsWrite (fs : FS) (p v : String) : FS :=
  match fs with
  | [] => [(p, v)]
  | (q, w) :: t => if q == p then (p, v) :: t else (q, w) :: fsWrite t p v

/-! ### `fetchScreenshots` -/

/-- One downloaded-screenshot record. -/
structure ScreenshotRec where
  nodeId : String
  safeNodeId : String
  filename : String
  path : String
deriving DecidableEq, Repr

/-- `nodeId.replace(/:/g, '-')`. -/
def safeIdOf (s : String) : String :=
  String.mk (s.data.map (fun c => if c == ':' then '-' else c))

/-- The local filename derived from a node id. -/
def filenameOf (nodeId : String) : String := "figma-" ++ safeIdOf nodeId ++ ".png"

/-- The raw-content public URL for a downloaded file. -/
def rawUrlOf (repo filename : String) : String :=
  "https://raw.githubusercontent.com/" ++ repo ++ "/main/public/images/" ++ filename

/-- The record pushed for a downloaded node. -/
def screenshotRecOf (repo nodeId : String) : ScreenshotRec :=
  ⟨nodeId, safeIdOf nodeId, filenameOf nodeId, rawUrlOf repo (filenameOf nodeId)⟩

/-- The download loop over `Object.entries(images)`: entries with a null URL
are skipped; otherwise the image content (given by the `download` oracle,
standing for `fetch(url).buffer()`) is written and a record appended. -/
def downloadLoop (repo : String) (download : String → String) :
    List (String × Option String) → FS → List ScreenshotRec × FS
  | [], fs => ([], fs)
  | (_, none) :: rest, fs => downloadLoop repo download rest fs
  | (nodeId, some url) :: rest, fs =>
    let fs' := fsWrite fs ("public/images/" ++ filenameOf nodeId) (download url)
    let acc := downloadLoop repo download rest fs'
    (screenshotRecOf repo nodeId :: acc.1, acc.2)

/-- The image-rendering endpoint's response: HTTP outcome plus the
node-to-URL map of its JSON body. -/
structure ImagesResponse where
  http : HttpResponse
  images : List (String × Option String)
deriving DecidableEq, Repr

/-- `fetchScreenshots()`: no-op on an empty node-id list, abort on a non-2xx
batch response, otherwise download each renderable node. `nodeIdsEnv` is
`process.env.FIGMA_NODE_IDS`. -/
def fetchScreenshots (repo : String) (nodeIdsEnv : Option String)
    (resp : ImagesResponse) (download : String → String) (fs : FS) :
    List ScreenshotRec × FS :=
  let nodeIds := match nodeIdsEnv with | none => [] | some s => jsSplitComma s
  if nodeIds.length == 0 then ([], fs)
  else if !respOk resp.http then ([], fs)
  else downloadLoop repo download resp.images fs

/-! ### `fetchDesignTokens` -/

/-- The variables endpoint's response: HTTP outcome plus parsed JSON body. -/
structure VariablesResponse where
  http : HttpResponse
  data : FigmaData
deriving DecidableEq, Repr

/-- A compact rendering of the token document written to
`tokens/_data/tokens.json`; the pipeline never reads this file back, so only
which file is written matters downstream. -/
def tokensJson (tk : Tokens) : String :=
  let entry := fun (p : String × TokenEntry) =>
    jsonStr p.1 ++ ":\x7b\"value\":" ++
      (match p.2.value with | some v => jsonStr v | none => "null") ++
      ",\"type\":" ++ jsonStr p.2.type ++ "\x7d"
  "\x7b\"colors\":\x7b" ++ String.intercalate "," (tk.colors.map entry) ++
  "\x7d,\"typography\":\x7b" ++ String.intercalate "," (tk.typography.map entry) ++
  "\x7d,\"spacing\":\x7b" ++ String.intercalate "," (tk.spacing.map entry) ++
  "\x7d,\"$lastSync\":" ++ jsonStr tk.lastSync ++ "\x7d"

/-- `fetchDesignTokens()`: on a non-2xx response the raised error is caught
and `null` returned with nothing written; on success the transformed token
document is written to `tokens/_data/tokens.json` and returned. -/
def fetchDesignTokens (now : String) (resp : VariablesResponse) (fs : FS) :
    Option Tokens × FS :=
  if !respOk resp.http then (none, fs)
  else
    let tokens := transformVariablesToTokens resp.data now
    (some tokens, fsWrite fs "tokens/_data/tokens.json" (tokensJson tokens))

/-! ### `updateComponentPages`: grouping and page rewriting -/

/-- The fixed component groups. -/
structure ComponentGroups where
  alerts : List ScreenshotRec
  forms : List ScreenshotRec
  cards : List ScreenshotRec
  other : List ScreenshotRec
deriving DecidableEq, Repr

/-- The alerts filter predicate: keyword `alert` (case-insensitive) or the
hard-coded alert component node id. -/
def inAlertsTest (img : ScreenshotRec) : Bool :=
  strIncludes (jsLower img.nodeId) "alert" || strIncludes img.nodeId "22123:476643"

/-- The forms filter predicate: keywords `form`, `input` or `field`. -/
def inFormsTest (img : ScreenshotRec) : Bool :=
  strIncludes (jsLower img.nodeId) "form" || strIncludes (jsLower img.nodeId) "input" ||
  strIncludes (jsLower img.nodeId) "field"

/-- The cards filter predicate: keyword `card`. -/
def inCardsTest (img : ScreenshotRec) : Bool := strIncludes (jsLower img.nodeId) "card"

/-- The other filter predicate: none of the six substring conditions. -/
def inOtherTest (img : ScreenshotRec) : Bool :=
  !strIncludes (jsLower img.nodeId) "alert" && !strIncludes img.nodeId "22123:476643" &&
  !strIncludes (jsLower img.nodeId) "form" && !strIncludes (jsLower img.nodeId) "input" &&
  !strIncludes (jsLower img.nodeId) "field" && !strIncludes (jsLower img.nodeId) "card"

/-- Group screenshots by component type, exactly as the four `filter`
calls in the source do. -/
def componentGroups (screenshots : List ScreenshotRec) : ComponentGroups where
  alerts := screenshots.filter inAlertsTest
  forms := screenshots.filter inFormsTest
  cards := screenshots.filter inCardsTest
  other := screenshots.filter inOtherTest

/-- The replacement for `/## Component Screenshots[\s\S]*?(?=##|$)/` on a
non-global regex: replace from the first occurrence of the heading up to (but
not including) the next `##` after it, or to end of input. Unchanged when the
heading is absent. -/
def replaceSectionOnce (content block : String) : String :=
  let l := content.data
  let pat := "## Component Screenshots".data
  match findSubIdx pat l with
  | none => content
  | some i =>
    let rest := l.drop (i + pat.length)
    let endOff := (findSubIdx ['#', '#'] rest).getD rest.length
    String.mk (l.take i ++ block.data ++ rest.drop endOff)

/-- JavaScript `\s` on the inputs at hand (ASCII whitespace). -/
def isJsWs (c : Char) : Bool := c.toNat == 32 || (9 ≤ c.toNat && c.toNat ≤ 13)

/-- Global removal of `/<Warning>[\s\S]*?<\/Warning>\s*/g`: each match spans
from an opening tag to the earliest closing tag, plus trailing whitespace.
Fuel-driven; `l.length` fuel suffices as each round drops a nonempty match. -/
def stripWarningsGo : Nat → List Char → List Char
  | 0, l => l
  | fuel+1, l =>
    match findSubIdx "<Warning>".data l with
    | none => l
    | some i =>
      let afterOpen := l.drop (i + 9)
      match findSubIdx "</Warning>".data afterOpen with
      | none => l
      | some j =>
        let afterClose := afterOpen.drop (j + 10)
        l.take i ++ stripWarningsGo fuel (afterClose.dropWhile isJsWs)

/-- `content.replace(/<Warning>[\s\S]*?<\/Warning>\s*\/g, '')`. -/
def stripWarnings (content : String) : String :=
  String.mk (stripWarningsGo content.length content.data)

/-- The per-image block of the screenshots section template. -/
def imageBlock (img : ScreenshotRec) : String :=
  "\n## " ++ safeIdOf img.nodeId ++ "\n\n<img\n  src=\"" ++ img.path ++
  "\"\n  alt=\"Component screenshot for " ++ img.nodeId ++
  "\"\n  style=\"border: 1px solid #e2e8f0; border-radius: 8px; margin: 16px 0;\"\n/>\n"

/-- The freshly rendered `## Component Screenshots` block. -/
def screenshotsBlock (now : String) (images : List ScreenshotRec) : String :=
  "## Component Screenshots\n\n<Note>\n  Last updated: " ++ now ++ "\n</Note>\n\n" ++
  String.intercalate "\n" (images.map imageBlock) ++ "\n\n"

/-- `updateComponentPage(componentType, images)`: read the page (a missing
file's throw is caught, skipping the page), swap in the fresh screenshots
section, strip warning callouts, write back. -/
def updateComponentPage (now : String) (fs : FS) (componentType : String)
    (images : List ScreenshotRec) : FS :=
  let filePath := "components/" ++ componentType ++ ".mdx"
  match fsRead fs filePath with
  | none => fs
  | some content =>
    let content := replaceSectionOnce content (screenshotsBlock now images)
    let content := stripWarnings content
    fsWrite fs filePath content

/-- `updateComponentPages(screenshots)`: group, then update each non-empty
non-`other` group's page in `Object.entries` order. -/
def updateComponentPages (now : String) (fs : FS) (screenshots : List ScreenshotRec) : FS :=
  if screenshots.length == 0 then fs
  else
    let g := componentGroups screenshots
    let fs := if g.alerts.length == 0 then fs else updateComponentPage now fs "alerts" g.alerts
    let fs := if g.forms.length == 0 then fs else updateComponentPage now fs "forms" g.forms
    let fs := if g.cards.length == 0 then fs else updateComponentPage now fs "cards" g.cards
    fs

/-! ### Token documentation pages -/

/-- One entry of the colors page template. -/
def colorEntry (p : String × TokenEntry) : String :=
  "\n## " ++ p.1 ++ "\n- **Value**: `" ++ jsShow p.2.value ++ "`\n- **Type**: " ++ p.2.type ++
  "\n<div style=\"background-color: " ++ jsShow p.2.value ++
  "; width: 100px; height: 50px; border: 1px solid #ccc;\"></div>\n"

/-- One entry of the spacing/typography page templates. -/
def plainEntry (p : String × TokenEntry) : String :=
  "\n## " ++ p.1 ++ "\n- **Value**: `" ++ jsShow p.2.value ++ "`\n- **Type**: " ++ p.2.type ++ "\n"

def generateColorsPage (now : String) (colors : List (String × TokenEntry)) : String :=
  "---\ntitle: \"Colors\"\ndescription: \"Design system color tokens synced from Figma\"\n---\n\n" ++
  "# Color Tokens\n\n<Note>Last synced: " ++ now ++ "</Note>\n\n" ++
  String.intercalate "\n" (colors.map colorEntry) ++ "\n"

def generateSpacingPage (now : String) (spacing : List (String × TokenEntry)) : String :=
  "---\ntitle: \"Spacing\"\ndescription: \"Design system spacing tokens synced from Figma\"\n---\n\n" ++
  "# Spacing Tokens\n\n<Note>Last synced: " ++ now ++ "</Note>\n\n" ++
  String.intercalate "\n" (spacing.map plainEntry) ++ "\n"

def generateTypographyPage (now : String) (typography : List (String × TokenEntry)) : String :=
  "---\ntitle: \"Typography\"\ndescription: \"Design system typography tokens synced from Figma\"\n---\n\n" ++
  "# Typography Tokens\n\n<Note>Last synced: " ++ now ++ "</Note>\n\n" ++
  String.intercalate "\n" (typography.map plainEntry) ++ "\n"

/-- `updateTokensPages(tokens)`: overwrite the three token fragments. -/
def updateTokensPages (now : String) (fs : FS) (tk : Tokens) : FS :=
  let fs := fsWrite fs "tokens/colors.mdx" (generateColorsPage now tk.colors)
  let fs := fsWrite fs "tokens/spacing.mdx" (generateSpacingPage now tk.spacing)
  fsWrite fs "tokens/typography.mdx" (generateTypographyPage now tk.typography)

/-! ### `updateDocumentation` and the orchestrator -/

/-- `updateDocumentation(tokens, screenshots)`: stamp the introduction page
(a missing introduction throws, caught by this function's own handler, so
nothing further happens), then regenerate token pages if a token document
exists, then inject screenshots if any were fetched. -/
def updateDocumentation (now : String) (fs : FS) (tokens : Option Tokens)
    (screenshots : List ScreenshotRec) : FS :=
  match fsRead fs "introduction.mdx" with
  | none => fs
  | some intro =>
    let fs := fsWrite fs "introduction.mdx"
      (jsReplaceAll intro "Last sync: [AUTO-GENERATED]" ("Last sync: " ++ now))
    let fs := match tokens with
      | some tk => updateTokensPages now fs tk
      | none => fs
    if screenshots.length > 0 then updateComponentPages now fs screenshots else fs

/-- The result of one orchestrated sync run. -/
structure SyncResult where
  tokens : Option Tokens
  screenshots : List ScreenshotRec
  fs : FS
  success : Bool
deriving DecidableEq, Repr

/-- `main()`: fetch tokens, fetch screenshots, update documentation. Every
fetch-level failure is caught inside its fetcher, and `updateDocumentation`
catches its own errors, so the run always completes. -/
def mainRun (now repo : String) (nodeIdsEnv : Option String)
    (tokResp : VariablesResponse) (imgResp : ImagesResponse)
    (download : String → String) (fs : FS) : SyncResult :=
  let (tokens, fs1) := fetchDesignTokens now tokResp fs
  let (screenshots, fs2) := fetchScreenshots repo nodeIdsEnv imgResp download fs1
  let fs3 := updateDocumentation now fs2 tokens screenshots
  ⟨tokens, screenshots, fs3, true⟩

/-! ### Concrete instances used in the theorems -/

/-- All eight state words below 2^32. -/
def BoundedH (H : HashS) : Prop :=
  H.a < M32 ∧ H.b < M32 ∧ H.c < M32 ∧ H.d < M32 ∧
  H.e < M32 ∧ H.f < M32 ∧ H.g < M32 ∧ H.h < M32

/-- The spec's classification examples: one collection holding a color, a
spacing, a typography and an unmatched variable. -/
def exampleVariablesData : FigmaData :=
  ⟨some ⟨[⟨"c1", "Collection", "m"⟩],
    [⟨"Primary Color", "c1", [("m", "#ff0000")]⟩,
     ⟨"Spacing/sm", "c1", [("m", "4")]⟩,
     ⟨"Font Family", "c1", [("m", "Inter")]⟩,
     ⟨"Border Radius", "c1", [("m", "8")]⟩]⟩⟩

/-- A minimal token document for the double-run experiment. -/
def runTwiceTokens : Tokens :=
  ⟨[("Primary Color", ⟨some "#ff0000", "color"⟩)], [], [], "1/1/2025, 12:00:00 PM"⟩

/-- A screenshot record landing in the alerts group. -/
def runTwiceShot : ScreenshotRec :=
  ⟨"alert:1", "alert-1", "figma-alert-1.png",
   "https://raw.githubusercontent.com/hellojulian/mintlify/main/public/images/figma-alert-1.png"⟩

/-- Starting files for the double-run experiment: an introduction page with
the sync placeholder and an alerts page with a `## Component Screenshots`
section. -/
def runTwiceFS : FS :=
  [("introduction.mdx", "Intro. Last sync: [AUTO-GENERATED]\n"),
   ("components/alerts.mdx", "# Alerts\n\n## Component Screenshots\n\nPlaceholder\n")]

/-- A fixed render timestamp; holding it constant across both runs isolates
the claim's "except for the embedded timestamps" allowance. -/
def runTwiceNow : String := "1/1/2025, 12:00:00 PM"

/-- A node identifier matching both the alerts and the cards keyword test. -/
def overlapShot : ScreenshotRec :=
  ⟨"alert card", "alert card", "figma-alert card.png",
   "https://raw.githubusercontent.com/hellojulian/mintlify/main/public/images/figma-alert card.png"⟩

/-- Component pages for the overlap experiment. -/
def overlapFS : FS :=
  [("components/alerts.mdx", "# Alerts\n\n## Component Screenshots\n\nNone\n"),
   ("components/cards.mdx", "# Cards\n\n## Component Screenshots\n\nNone\n")]

/-! ## Theorems -/

lemma compressBlock_bounded (H : HashS) (blk : List Nat) : BoundedH (compressBlock H blk) := by
  unfold compressBlock BoundedH
  refine ⟨?_, ?_, ?_, ?_, ?_, ?_, ?_, ?_⟩ <;> exact Nat.mod_lt _ (by decide)

lemma foldl_compress_bounded (l : List (List Nat)) :
    ∀ H, BoundedH H → BoundedH (l.foldl compressBlock H) := by
  induction l with
  | nil => intro H h; exact h
  | cons b t ih => intro H _; exact ih _ (compressBlock_bounded _ _)

lemma initH_bounded : BoundedH initH :=
  ⟨by decide, by decide, by decide, by decide, by decide, by decide, by decide, by decide⟩

lemma sha256Hash_bounded (m : List Nat) : BoundedH (sha256Hash m) :=
  foldl_compress_bounded _ initH initH_bounded

lemma hmacSha256Hash_bounded (s b : List Nat) : BoundedH (hmacSha256Hash s b) :=
  sha256Hash_bounded _

lemma hashS_eq_of_fields (x y : HashS) (ha : x.a = y.a) (hb : x.b = y.b) (hc : x.c = y.c)
    (hd : x.d = y.d) (he : x.e = y.e) (hf : x.f = y.f) (hg : x.g = y.g) (hh : x.h = y.h) :
    x = y := by
  cases x; cases y; simp_all

lemma hmacSha256Hex_congr (s b1 b2 : List Nat)
    (h : hmacSha256Hash s b1 = hmacSha256Hash s b2) :
    hmacSha256Hex s b1 = hmacSha256Hex s b2 := by
  unfold hmacSha256Hex
  rw [h]

/-- The digest of the all-zero body of length `n`, packaged into a finite
type. -/
def digestTuple (n : Nat) :
    Fin M32 × Fin M32 × Fin M32 × Fin M32 × Fin M32 × Fin M32 × Fin M32 × Fin M32 :=
  (⟨(hmacSha256Hash [] (List.replicate n 0)).a, (hmacSha256Hash_bounded [] (List.replicate n 0)).1⟩,
   ⟨(hmacSha256Hash [] (List.replicate n 0)).b, (hmacSha256Hash_bounded [] (List.replicate n 0)).2.1⟩,
   ⟨(hmacSha256Hash [] (List.replicate n 0)).c, (hmacSha256Hash_bounded [] (List.replicate n 0)).2.2.1⟩,
   ⟨(hmacSha256Hash [] (List.replicate n 0)).d, (hmacSha256Hash_bounded [] (List.replicate n 0)).2.2.2.1⟩,
   ⟨(hmacSha256Hash [] (List.replicate n 0)).e, (hmacSha256Hash_bounded [] (List.replicate n 0)).2.2.2.2.1⟩,
   ⟨(hmacSha256Hash [] (List.replicate n 0)).f, (hmacSha256Hash_bounded [] (List.replicate n 0)).2.2.2.2.2.1⟩,
   ⟨(hmacSha256Hash [] (List.replicate n 0)).g, (hmacSha256Hash_bounded [] (List.replicate n 0)).2.2.2.2.2.2.1⟩,
   ⟨(hmacSha256Hash [] (List.replicate n 0)).h, (hmacSha256Hash_bounded [] (List.replicate n 0)).2.2.2.2.2.2.2⟩)

lemma digestTuple_eq_hash {n m : Nat} (h : digestTuple n = digestTuple m) :
    hmacSha256Hash [] (List.replicate n 0) = hmacSha256Hash [] (List.replicate m 0) := by
  simp only [digestTuple, Prod.mk.injEq, Fin.mk.injEq] at h
  exact hashS_eq_of_fields _ _ h.1 h.2.1 h.2.2.1 h.2.2.2.1 h.2.2.2.2.1 h.2.2.2.2.2.1
    h.2.2.2.2.2.2.1 h.2.2.2.2.2.2.2

/-- C1 counterexample: it is not the case that for every secret and every
pair of distinct bodies the verifier rejects — HMAC-SHA256 digests live in a
finite space while bodies do not, so two distinct bodies share a digest and
the verifier accepts the "wrong" body. -/
theorem C1_distinct_bodies_reject_is_false :
    ¬ ∀ (s b1 b2 : List Nat), b1 ≠ b2 →
        verifyFigmaWebhook b1 (hmacSha256Hex s b2) s = false := by
  intro hall
  obtain ⟨n, m, hnm, hfeq⟩ := Finite.exists_ne_map_eq_of_infinite digestTuple
  have hhex := hmacSha256Hex_congr [] _ _ (digestTuple_eq_hash hfeq)
  have hne : List.replicate n 0 ≠ List.replicate m 0 := by
    intro h
    exact hnm (by simpa using congrArg List.length h)
  have hmain := hall [] (List.replicate n 0) (List.replicate m 0) hne
  rw [verifyFigmaWebhook, ← hhex] at hmain
  simp at hmain

/-- C1 (amended): the verifier accepts the digest of the body itself for
every body and secret, and on a forged pairing it rejects exactly when the
two bodies' HMAC-SHA256 hex digests differ (distinct bodies may collide, so
rejection for all distinct pairs cannot hold). -/
theorem C1_verify_roundtrip :
    (∀ (b s : List Nat), verifyFigmaWebhook b (hmacSha256Hex s b) s = true) ∧
    (∀ (s b1 b2 : List Nat),
      (verifyFigmaWebhook b1 (hmacSha256Hex s b2) s = false ↔
        hmacSha256Hex s b1 ≠ hmacSha256Hex s b2)) := by
  constructor
  · intro b s
    simp [verifyFigmaWebhook]
  · intro s b1 b2
    simp only [verifyFigmaWebhook, beq_eq_false_iff_ne]
    exact ne_comm

/-- C1 witness: the first component applied to a concrete body and secret. -/
theorem C1_verify_roundtrip_witness :
    verifyFigmaWebhook [1, 2, 3] (hmacSha256Hex [9, 9] [1, 2, 3]) [9, 9] = true :=
  C1_verify_roundtrip.1 [1, 2, 3] [9, 9]

/-- C10: an `OPTIONS` request is answered `200 {message: "OK"}` with no
dispatch, whatever the body, signature or environment; any method other than
`POST` and `OPTIONS` is answered `405` with an error object and no
dispatch. -/
theorem C10_method_gate :
    ∀ (env : WebhookEnv) (req : WebhookRequest) (dresp : HttpResponse),
      (req.method = "OPTIONS" →
        handler env req dresp = (⟨200, some "OK", none, none, none⟩, 0)) ∧
      (req.method ≠ "OPTIONS" → req.method ≠ "POST" →
        handler env req dresp = (⟨405, none, some "Method not allowed", none, none⟩, 0)) := by
  intro env req dresp
  constructor
  · intro h
    simp [handler, h]
  · intro h1 h2
    simp [handler, h1, h2]

/-- C10 witness at a concrete `OPTIONS` and a concrete `GET` request. -/
theorem C10_method_gate_witness :
    handler ⟨none, none, none⟩ ⟨"OPTIONS", none, ⟨none, none, none, none⟩⟩ ⟨200, ""⟩ =
      (⟨200, some "OK", none, none, none⟩, 0) ∧
    handler ⟨none, none, none⟩ ⟨"GET", none, ⟨none, none, none, none⟩⟩ ⟨200, ""⟩ =
      (⟨405, none, some "Method not allowed", none, none⟩, 0) :=
  ⟨(C10_method_gate _ _ _).1 rfl, (C10_method_gate _ _ _).2 (by decide) (by decide)⟩

/-- C3: on a `POST` with a configured webhook secret, any supplied signature
(including an absent header) other than the HMAC-SHA256 hex digest of the
serialized body under that secret is answered `401 {error}` with zero
dispatch POSTs. -/
theorem C3_bad_signature_rejected :
    ∀ (env : WebhookEnv) (req : WebhookRequest) (dresp : HttpResponse),
      req.method = "POST" →
      jsTruthy env.figmaWebhookSecret = true →
      req.signature ≠ some (hmacSha256Hex (utf8Bytes ((env.figmaWebhookSecret).getD ""))
        (utf8Bytes (stringifyFigmaEvent req.body))) →
      handler env req dresp = (⟨401, none, some "Invalid signature", none, none⟩, 0) := by
  intro env req dresp hm hsec hneq
  cases hs : req.signature with
  | none =>
    simp [handler, hm, hsec, hs]
  | some sig =>
    have hv : (sig == hmacSha256Hex (utf8Bytes ((env.figmaWebhookSecret).getD ""))
        (utf8Bytes (stringifyFigmaEvent req.body))) = false := by
      simp only [beq_eq_false_iff_ne]
      intro he
      exact hneq (by rw [hs, he])
    simp [handler, hm, hsec, hs, verifyFigmaWebhook, hv]

/-- C3 witness: secret configured, signature header absent. -/
theorem C3_bad_signature_rejected_witness :
    handler ⟨some "shh", some "t", some "o/r"⟩
        ⟨"POST", none, ⟨some "FILE_UPDATE", none, none, none⟩⟩ ⟨204, ""⟩ =
      (⟨401, none, some "Invalid signature", none, none⟩, 0) :=
  C3_bad_signature_rejected _ _ _ rfl rfl (by simp)

/-- C2: on a signature-accepted `POST` (secret unconfigured, or header equal
to the body's digest), an event of type `FILE_UPDATE` with GitHub token and
repository configured and a 2xx dispatch response is answered
`200 {triggered: true}` having issued exactly one dispatch POST, while any
other event type is answered `200` with no `triggered` field, the event type
echoed, and zero dispatch POSTs. -/
theorem C2_file_update_dispatch :
    ∀ (env : WebhookEnv) (req : WebhookRequest) (dresp : HttpResponse),
      req.method = "POST" →
      (jsTruthy env.figmaWebhookSecret = false ∨
        req.signature = some (hmacSha256Hex (utf8Bytes ((env.figmaWebhookSecret).getD ""))
          (utf8Bytes (stringifyFigmaEvent req.body)))) →
      ((req.body.event_type = some "FILE_UPDATE" → jsTruthy env.githubToken = true →
          jsTruthy env.githubRepository = true → respOk dresp = true →
          handler env req dresp =
            (⟨200, some "Webhook processed successfully", none, some true, none⟩, 1)) ∧
       (req.body.event_type ≠ some "FILE_UPDATE" →
          handler env req dresp = (⟨200, some "Event ignored", none, none, req.body.event_type⟩, 0))) := by
  intro env req dresp hm hsig
  constructor
  · intro hev htok hrepo hok
    rcases hsig with h | h
    · simp [handler, hm, h, hev, triggerGitHubAction, htok, hrepo, hok]
    · simp [handler, hm, h, verifyFigmaWebhook, hev, triggerGitHubAction, htok, hrepo, hok]
  · intro hev
    rcases hsig with h | h
    · simp [handler, hm, h, hev]
    · simp [handler, hm, h, verifyFigmaWebhook, hev]

/-- C2 witness: no secret configured; a `FILE_UPDATE` event dispatches once,
a `LIBRARY_PUBLISH` event is ignored with zero dispatches. -/
theorem C2_file_update_dispatch_witness :
    handler ⟨none, some "t", some "o/r"⟩
        ⟨"POST", none, ⟨some "FILE_UPDATE", some "f", some "k", some "u"⟩⟩ ⟨204, ""⟩ =
      (⟨200, some "Webhook processed successfully", none, some true, none⟩, 1) ∧
    handler ⟨none, some "t", some "o/r"⟩
        ⟨"POST", none, ⟨some "LIBRARY_PUBLISH", some "f", some "k", some "u"⟩⟩ ⟨204, ""⟩ =
      (⟨200, some "Event ignored", none, none, some "LIBRARY_PUBLISH"⟩, 0) :=
  ⟨(C2_file_update_dispatch ⟨none, some "t", some "o/r"⟩ _ _ rfl (Or.inl rfl)).1
      rfl rfl rfl (by decide),
   (C2_file_update_dispatch ⟨none, some "t", some "o/r"⟩ _ _ rfl (Or.inl rfl)).2 (by decide)⟩

/-- C7: the dispatch forwarder succeeds exactly when both configuration
values are set (non-empty) and the single POST's response is 2xx; a missing
configuration raises before any POST (zero POSTs), a non-2xx response raises
with the status and response body in the message after the one POST, and in
no case is more than one POST issued. -/
theorem C7_trigger_contract :
    ∀ (env : WebhookEnv) (resp : HttpResponse),
      ((triggerGitHubAction env resp).1 = Except.ok () ↔
        (jsTruthy env.githubToken = true ∧ jsTruthy env.githubRepository = true ∧
         respOk resp = true)) ∧
      (jsTruthy env.githubToken = false ∨ jsTruthy env.githubRepository = false →
        triggerGitHubAction env resp = (Except.error "Missing GitHub configuration", 0)) ∧
      (jsTruthy env.githubToken = true → jsTruthy env.githubRepository = true →
        respOk resp = false →
        triggerGitHubAction env resp =
          (Except.error ("GitHub API error: " ++ toString resp.status ++ " " ++ resp.text), 1)) ∧
      (jsTruthy env.githubToken = true → jsTruthy env.githubRepository = true →
        respOk resp = true → triggerGitHubAction env resp = (Except.ok (), 1)) ∧
      (triggerGitHubAction env resp).2 ≤ 1 := by
  intro env resp
  cases ht : jsTruthy env.githubToken <;> cases hr : jsTruthy env.githubRepository <;>
    cases ho : respOk resp <;> simp [triggerGitHubAction, ht, hr, ho]

/-- C7 witness: missing token (zero POSTs), a 404 dispatch response (one
POST, status and body attached), and a successful dispatch (one POST). -/
theorem C7_trigger_contract_witness :
    triggerGitHubAction ⟨none, none, some "o/r"⟩ ⟨204, ""⟩ =
      (Except.error "Missing GitHub configuration", 0) ∧
    triggerGitHubAction ⟨none, some "t", some "o/r"⟩ ⟨404, "Not Found"⟩ =
      (Except.error ("GitHub API error: " ++ toString (404 : Nat) ++ " " ++ "Not Found"), 1) ∧
    triggerGitHubAction ⟨none, some "t", some "o/r"⟩ ⟨204, ""⟩ = (Except.ok (), 1) :=
  ⟨(C7_trigger_contract _ _).2.1 (Or.inl rfl),
   (C7_trigger_contract _ _).2.2.1 rfl rfl (by decide),
   (C7_trigger_contract _ _).2.2.2.1 rfl rfl (by decide)⟩

/-- C4: a variable whose collection matches is classified by the
case-insensitive substring tests color, spacing, font/typography, in that
priority order with the first match winning and each variable landing in
exactly one (or no) category; on the spec's examples, "Primary Color" lands
under colors, "Spacing/sm" under spacing with a `px` suffix, "Font Family"
under typography, and "Border Radius" in none of the three. -/
theorem C4_token_classification :
    (∀ (now : String) (c : VariableCollection) (v : FigmaVariable),
      v.variableCollectionId = c.id →
      transformVariablesToTokens ⟨some ⟨[c], [v]⟩⟩ now =
        (if matchesColor v c then
          ⟨[(v.name, ⟨v.valuesByMode.lookup c.defaultModeId, "color"⟩)], [], [], now⟩
        else if matchesSpacing v c then
          ⟨[], [], [(v.name,
            ⟨some (jsShow (v.valuesByMode.lookup c.defaultModeId) ++ "px"), "dimension"⟩)], now⟩
        else if matchesFont v c then
          ⟨[], [(v.name, ⟨v.valuesByMode.lookup c.defaultModeId, "fontFamily"⟩)], [], now⟩
        else ⟨[], [], [], now⟩)) ∧
    transformVariablesToTokens exampleVariablesData "T" =
      ⟨[("Primary Color", ⟨some "#ff0000", "color"⟩)],
       [("Font Family", ⟨some "Inter", "fontFamily"⟩)],
       [("Spacing/sm", ⟨some "4px", "dimension"⟩)], "T"⟩ := by
  constructor
  · intro now c v hvc
    simp only [transformVariablesToTokens, List.foldl_cons, List.foldl_nil]
    rw [classifyStep, if_pos (by simp [hvc])]
    cases h1 : matchesColor v c <;> cases h2 : matchesSpacing v c <;>
      cases h3 : matchesFont v c <;> simp [h1, h2, h3, insertToken]
  · decide

/-- C4 witness: the general characterization applied to a spacing variable
in a freshly named collection. -/
theorem C4_token_classification_witness :
    transformVariablesToTokens
        ⟨some ⟨[⟨"c9", "Base", "m"⟩], [⟨"Page Spacing", "c9", [("m", "8")]⟩]⟩⟩ "T" =
      ⟨[], [], [("Page Spacing", ⟨some "8px", "dimension"⟩)], "T"⟩ := by
  rw [C4_token_classification.1 "T" ⟨"c9", "Base", "m"⟩ ⟨"Page Spacing", "c9", [("m", "8")]⟩ rfl]
  decide

/-- C8 counterexample: the node id "alert card" matches both the alerts and
the cards substring tests, so its record is grouped under — and its section
written into — two category pages at once, contradicting pairwise
disjointness. -/
theorem C8_groups_overlap :
    overlapShot ∈ (componentGroups [overlapShot]).alerts ∧
    overlapShot ∈ (componentGroups [overlapShot]).cards ∧
    strIncludes ((fsRead (updateComponentPages "Z" overlapFS [overlapShot])
      "components/alerts.mdx").getD "") "## alert card" = true ∧
    strIncludes ((fsRead (updateComponentPages "Z" overlapFS [overlapShot])
      "components/cards.mdx").getD "") "## alert card" = true := by
  decide

/-- C8 (amended): membership in each group is exactly the source's substring
filter on the node identifier (the hard-coded id `22123:476643` counting as
alerts); `other` is exactly the records matching none of the keyword tests,
so it is disjoint from the named groups, and the four groups jointly cover
all records — but the alerts/forms/cards filters are independent, so a
record matching several keyword families is placed in each matching
category's page (they are not pairwise disjoint). -/
theorem C8_grouping_cover :
    ∀ (shots : List ScreenshotRec) (r : ScreenshotRec),
      (r ∈ (componentGroups shots).alerts ↔ r ∈ shots ∧ inAlertsTest r = true) ∧
      (r ∈ (componentGroups shots).forms ↔ r ∈ shots ∧ inFormsTest r = true) ∧
      (r ∈ (componentGroups shots).cards ↔ r ∈ shots ∧ inCardsTest r = true) ∧
      (r ∈ (componentGroups shots).other ↔ r ∈ shots ∧ inOtherTest r = true) ∧
      (inOtherTest r = true ↔
        (inAlertsTest r = false ∧ inFormsTest r = false ∧ inCardsTest r = false)) ∧
      (r ∈ shots →
        r ∈ (componentGroups shots).alerts ∨ r ∈ (componentGroups shots).forms ∨
        r ∈ (componentGroups shots).cards ∨ r ∈ (componentGroups shots).other) := by
  intro shots r
  have hA : r ∈ (componentGroups shots).alerts ↔ r ∈ shots ∧ inAlertsTest r = true := by
    simp [componentGroups, List.mem_filter]
  have hF : r ∈ (componentGroups shots).forms ↔ r ∈ shots ∧ inFormsTest r = true := by
    simp [componentGroups, List.mem_filter]
  have hC : r ∈ (componentGroups shots).cards ↔ r ∈ shots ∧ inCardsTest r = true := by
    simp [componentGroups, List.mem_filter]
  have hO : r ∈ (componentGroups shots).other ↔ r ∈ shots ∧ inOtherTest r = true := by
    simp [componentGroups, List.mem_filter]
  have hTest : inOtherTest r = true ↔
      (inAlertsTest r = false ∧ inFormsTest r = false ∧ inCardsTest r = false) := by
    unfold inOtherTest inAlertsTest inFormsTest inCardsTest
    cases strIncludes (jsLower r.nodeId) "alert" <;>
      cases strIncludes r.nodeId "22123:476643" <;>
      cases strIncludes (jsLower r.nodeId) "form" <;>
      cases strIncludes (jsLower r.nodeId) "input" <;>
      cases strIncludes (jsLower r.nodeId) "field" <;>
      cases strIncludes (jsLower r.nodeId) "card" <;> simp
  refine ⟨hA, hF, hC, hO, hTest, ?_⟩
  intro hr
  cases ha : inAlertsTest r with
  | true => exact Or.inl (hA.mpr ⟨hr, ha⟩)
  | false =>
    cases hf : inFormsTest r with
    | true => exact Or.inr (Or.inl (hF.mpr ⟨hr, hf⟩))
    | false =>
      cases hc : inCardsTest r with
      | true => exact Or.inr (Or.inr (Or.inl (hC.mpr ⟨hr, hc⟩)))
      | false =>
        exact Or.inr (Or.inr (Or.inr (hO.mpr ⟨hr, hTest.mpr ⟨ha, hf, hc⟩⟩)))

/-- C8 witness: the characterizations and the coverage disjunction at a
concrete record. -/
theorem C8_grouping_cover_witness :
    overlapShot ∈ (componentGroups [overlapShot]).alerts ∨
    overlapShot ∈ (componentGroups [overlapShot]).forms ∨
    overlapShot ∈ (componentGroups [overlapShot]).cards ∨
    overlapShot ∈ (componentGroups [overlapShot]).other :=
  (C8_grouping_cover [overlapShot] overlapShot).2.2.2.2.2 (by decide)

/-- C9: the download loop produces exactly one record per non-null entry, in
order, skipping null-URL entries entirely (no record and no file), with each
downloaded entry's file written under `figma-` plus the node id with colons
replaced by hyphens plus `.png`; in particular node "12:34" yields
`figma-12-34.png`. -/
theorem C9_screenshot_filenames :
    (∀ (repo : String) (download : String → String)
      (images : List (String × Option String)) (fs : FS),
      (downloadLoop repo download images fs).1 =
        (images.filter (fun e => e.2.isSome)).map (fun e => screenshotRecOf repo e.1) ∧
      (downloadLoop repo download images fs).2 =
        (images.filterMap (fun e => e.2.map (fun u => (e.1, u)))).foldl
          (fun acc p => fsWrite acc ("public/images/" ++ filenameOf p.1) (download p.2)) fs) ∧
    (∀ (repo s : String) (resp : ImagesResponse) (download : String → String) (fs : FS),
      (jsSplitComma s).length ≠ 0 → respOk resp.http = true →
      fetchScreenshots repo (some s) resp download fs =
        downloadLoop repo download resp.images fs) ∧
    filenameOf "12:34" = "figma-12-34.png" ∧ safeIdOf "12:34" = "12-34" := by
  refine ⟨?_, ?_, by decide, by decide⟩
  · intro repo download images fs
    induction images generalizing fs with
    | nil => simp [downloadLoop]
    | cons e rest ih =>
      obtain ⟨n, u⟩ := e
      cases u with
      | none => simpa [downloadLoop] using ih fs
      | some url => simp [downloadLoop, ih]
  · intro repo s resp download fs h1 h2
    have hlen : ((jsSplitComma s).length == 0) = false := by
      simp [h1]
    simp [fetchScreenshots, hlen, h2]

/-- C9 witness: a concrete fetch with one renderable and one null entry. -/
theorem C9_screenshot_filenames_witness :
    fetchScreenshots "o/r" (some "12:34,9:9")
        ⟨⟨200, "OK"⟩, [("12:34", some "u1"), ("9:9", none)]⟩ (fun _ => "IMG") [] =
      downloadLoop "o/r" (fun _ => "IMG") [("12:34", some "u1"), ("9:9", none)] [] :=
  C9_screenshot_filenames.2.1 "o/r" "12:34,9:9" _ _ _ (by decide) (by decide)

/-- C5: running the Documentation Updater twice with identical input data
and even an identical render timestamp does not reproduce the first run's
files — the freshly injected screenshots block itself contains `##`
sub-headings, so the second run's section match stops early and the old
screenshot listing survives, duplicating it. This contradicts the
documented replace-the-section intent, so the claim marks a code bug. -/
theorem C5_double_run_not_idempotent :
    updateDocumentation runTwiceNow
        (updateDocumentation runTwiceNow runTwiceFS (some runTwiceTokens) [runTwiceShot])
        (some runTwiceTokens) [runTwiceShot] ≠
      updateDocumentation runTwiceNow runTwiceFS (some runTwiceTokens) [runTwiceShot] := by
  decide

lemma fsRead_fsWrite_ne (fs : FS) (p v q : String) (hpq : p ≠ q) :
    fsRead (fsWrite fs p v) q = fsRead fs q := by
  induction fs with
  | nil =>
    have hqp : (q == p) = false := by simp [beq_eq_false_iff_ne, Ne.symm hpq]
    simp [fsWrite, fsRead, List.lookup, hqp]
  | cons hd t ih =>
    obtain ⟨k, w⟩ := hd
    by_cases hk : k = p
    · subst hk
      have : (q == k) = false := by simp [beq_eq_false_iff_ne, Ne.symm hpq]
      simp [fsWrite, fsRead, List.lookup, this]
    · have hkp : (k == p) = false := by simp [beq_eq_false_iff_ne, hk]
      by_cases hq : q = k
      · subst hq
        simp [fsWrite, fsRead, List.lookup, hkp]
      · have : (q == k) = false := by simp [beq_eq_false_iff_ne, hq]
        simpa [fsWrite, fsRead, List.lookup, hkp, this] using ih

lemma publicImages_head (f : String) : ("public/images/" ++ f).data.head? = some 'p' := by
  rw [String.data_append]
  rfl

lemma publicImages_ne (f q : String) (hq : q.data.head? ≠ some 'p') :
    ("public/images/" ++ f) ≠ q :=
  fun he => hq (he ▸ publicImages_head f)

lemma downloadLoop_preserves (repo : String) (download : String → String)
    (images : List (String × Option String)) :
    ∀ (fs : FS) (q : String), q.data.head? ≠ some 'p' →
      fsRead (downloadLoop repo download images fs).2 q = fsRead fs q := by
  induction images with
  | nil => intro fs q _; rfl
  | cons e rest ih =>
    intro fs q hq
    obtain ⟨n, u⟩ := e
    cases u with
    | none => exact ih fs q hq
    | some url =>
      simp only [downloadLoop]
      rw [ih _ q hq, fsRead_fsWrite_ne _ _ _ _ (publicImages_ne _ _ hq)]

lemma fetchScreenshots_preserves (repo : String) (nodeIdsEnv : Option String)
    (resp : ImagesResponse) (download : String → String) (fs : FS) (q : String)
    (hq : q.data.head? ≠ some 'p') :
    fsRead (fetchScreenshots repo nodeIdsEnv resp download fs).2 q = fsRead fs q := by
  unfold fetchScreenshots
  cases nodeIdsEnv with
  | none => rfl
  | some s =>
    by_cases h1 : ((jsSplitComma s).length == 0) = true
    · simp [h1]
    · by_cases h2 : respOk resp.http
      · simp only [h1, h2]
        simpa using downloadLoop_preserves repo download resp.images fs q hq
      · simp [h1, h2]

lemma updateComponentPage_preserves (now : String) (fs : FS) (ct : String)
    (images : List ScreenshotRec) (q : String) (h : ("components/" ++ ct ++ ".mdx") ≠ q) :
    fsRead (updateComponentPage now fs ct images) q = fsRead fs q := by
  unfold updateComponentPage
  rcases hr : fsRead fs ("components/" ++ ct ++ ".mdx") with _ | content
  · simp [hr]
  · simp only [hr]
    exact fsRead_fsWrite_ne _ _ _ _ h

lemma updateComponentPages_preserves (now : String) (fs : FS)
    (shots : List ScreenshotRec) (q : String)
    (h1 : ("components/" ++ "alerts" ++ ".mdx") ≠ q)
    (h2 : ("components/" ++ "forms" ++ ".mdx") ≠ q)
    (h3 : ("components/" ++ "cards" ++ ".mdx") ≠ q) :
    fsRead (updateComponentPages now fs shots) q = fsRead fs q := by
  unfold updateComponentPages
  by_cases h0 : (shots.length == 0) = true
  · simp [h0]
  · simp only [h0, Bool.false_eq_true, if_false]
    by_cases ha : ((componentGroups shots).alerts.length == 0) = true <;>
      by_cases hf : ((componentGroups shots).forms.length == 0) = true <;>
        by_cases hc : ((componentGroups shots).cards.length == 0) = true <;>
          simp [ha, hf, hc, updateComponentPage_preserves _ _ _ _ _ h1,
            updateComponentPage_preserves _ _ _ _ _ h2,
            updateComponentPage_preserves _ _ _ _ _ h3]

lemma updateDocumentation_none_preserves (now : String) (fs : FS)
    (shots : List ScreenshotRec) (q : String)
    (hq0 : "introduction.mdx" ≠ q)
    (hq1 : ("components/" ++ "alerts" ++ ".mdx") ≠ q)
    (hq2 : ("components/" ++ "forms" ++ ".mdx") ≠ q)
    (hq3 : ("components/" ++ "cards" ++ ".mdx") ≠ q) :
    fsRead (updateDocumentation now fs none shots) q = fsRead fs q := by
  unfold updateDocumentation
  rcases hr : fsRead fs "introduction.mdx" with _ | intro
  · simp [hr]
  · simp only [hr]
    by_cases hs : shots.length > 0
    · simp only [if_pos hs]
      rw [updateComponentPages_preserves _ _ _ _ hq1 hq2 hq3,
        fsRead_fsWrite_ne _ _ _ _ hq0]
    · simp only [if_neg hs]
      exact fsRead_fsWrite_ne _ _ _ _ hq0

/-- C6: when the variables endpoint answers non-2xx, `fetchDesignTokens`
returns `null` having written nothing; the orchestrated run still completes,
the screenshot pipeline runs exactly as it would on the same starting files,
the final file system is the documentation update applied without a token
document, and the three token fragments are left untouched. -/
theorem C6_token_fetch_failure_degrades :
    ∀ (now repo : String) (nodeIdsEnv : Option String) (tokResp : VariablesResponse)
      (imgResp : ImagesResponse) (download : String → String) (fs : FS),
      respOk tokResp.http = false →
      fetchDesignTokens now tokResp fs = (none, fs) ∧
      (mainRun now repo nodeIdsEnv tokResp imgResp download fs).success = true ∧
      (mainRun now repo nodeIdsEnv tokResp imgResp download fs).screenshots =
        (fetchScreenshots repo nodeIdsEnv imgResp download fs).1 ∧
      (mainRun now repo nodeIdsEnv tokResp imgResp download fs).fs =
        updateDocumentation now (fetchScreenshots repo nodeIdsEnv imgResp download fs).2
          none (fetchScreenshots repo nodeIdsEnv imgResp download fs).1 ∧
      (∀ q, q = "tokens/colors.mdx" ∨ q = "tokens/spacing.mdx" ∨ q = "tokens/typography.mdx" →
        fsRead (mainRun now repo nodeIdsEnv tokResp imgResp download fs).fs q = fsRead fs q) := by
  intro now repo nodeIdsEnv tokResp imgResp download fs h
  have hfd : fetchDesignTokens now tokResp fs = (none, fs) := by
    simp [fetchDesignTokens, h]
  have hmain : mainRun now repo nodeIdsEnv tokResp imgResp download fs =
      ⟨none, (fetchScreenshots repo nodeIdsEnv imgResp download fs).1,
       updateDocumentation now (fetchScreenshots repo nodeIdsEnv imgResp download fs).2
         none (fetchScreenshots repo nodeIdsEnv imgResp download fs).1, true⟩ := by
    rw [mainRun, hfd]
  refine ⟨hfd, by rw [hmain], by rw [hmain], by rw [hmain], ?_⟩
  intro q hq
  rw [hmain]
  have hp : q.data.head? ≠ some 'p' := by
    rcases hq with rfl | rfl | rfl <;> decide
  rw [updateDocumentation_none_preserves _ _ _ _ (by rcases hq with rfl | rfl | rfl <;> decide)
      (by rcases hq with rfl | rfl | rfl <;> decide)
      (by rcases hq with rfl | rfl | rfl <;> decide)
      (by rcases hq with rfl | rfl | rfl <;> decide)]
  exact fetchScreenshots_preserves _ _ _ _ _ _ hp

/-- C6 witness: a failing token fetch next to a successful screenshot fetch
on concrete files. -/
theorem C6_token_fetch_failure_degrades_witness :
    fetchDesignTokens "T" ⟨⟨500, "err"⟩, ⟨none⟩⟩ runTwiceFS = (none, runTwiceFS) ∧
    fsRead (mainRun "T" "o/r" (some "alert:1")
        ⟨⟨500, "err"⟩, ⟨none⟩⟩ ⟨⟨200, "OK"⟩, [("alert:1", some "u")]⟩
        (fun _ => "IMG") runTwiceFS).fs "tokens/colors.mdx" =
      fsRead runTwiceFS "tokens/colors.mdx" :=
  ⟨(C6_token_fetch_failure_degrades "T" "o/r" (some "alert:1") ⟨⟨500, "err"⟩, ⟨none⟩⟩
      ⟨⟨200, "OK"⟩, [("alert:1", some "u")]⟩ (fun _ => "IMG") runTwiceFS (by decide)).1,
   (C6_token_fetch_failure_degrades "T" "o/r" (some "alert:1") ⟨⟨500, "err"⟩, ⟨none⟩⟩
      ⟨⟨200, "OK"⟩, [("alert:1", some "u")]⟩ (fun _ => "IMG") runTwiceFS (by decide)).2.2.2.2
     "tokens/colors.mdx" (Or.inl rfl)⟩

end FigmaSync

